import Mathlib

/-!
Verification of the TaxCalc2026 scenario calculation engine.

The definitions below are a shallow embedding of the numeric core of
src/src/components/TaxCalculator.jsx (the scenario engine) and of the
retirement backsolver in src/src/components/TaxCalculator - Backup.jsx.
JavaScript numbers are modelled as rationals (and, for the backsolver,
which uses Math.log, as reals); a bracket ceiling of Infinity is
modelled as an Option that is none.
-/

/-- A marginal tax bracket, TaxCalculator.jsx lines 5-39.
A `hi` of none models a JavaScript ceiling of Infinity. -/
structure TaxBracket where
  rate : ℚ
  lo : ℚ
  hi : Option ℚ
deriving DecidableEq

/-- FEDERAL_BRACKETS_MFJ, TaxCalculator.jsx lines 5-10. -/
def FEDERAL_BRACKETS_MFJ : List TaxBracket :=
  [⟨0.10, 0, some 23850⟩, ⟨0.12, 23851, some 96950⟩,
   ⟨0.22, 96951, some 206700⟩, ⟨0.24, 206701, some 394600⟩,
   ⟨0.32, 394601, some 501050⟩, ⟨0.35, 501051, some 751600⟩,
   ⟨0.37, 751601, none⟩]

/-- LTCG_BRACKETS_MFJ[0].max, TaxCalculator.jsx line 12. -/
def zeroRateMax : ℚ := 96950

/-- LTCG_BRACKETS_MFJ[1].max, TaxCalculator.jsx line 12. -/
def fifteenRateMax : ℚ := 583750

/-- TaxCalculator.jsx line 14. -/
def FEDERAL_STANDARD_DEDUCTION_MFJ : ℚ := 31500

/-- TaxCalculator.jsx line 15. -/
def SALT_CAP : ℚ := 40000

/-- TaxCalculator.jsx line 16. -/
def FEDERAL_MORTGAGE_DEBT_LIMIT : ℚ := 750000

/-- TaxCalculator.jsx line 17. -/
def CA_MORTGAGE_DEBT_LIMIT : ℚ := 1000000

/-- TaxCalculator.jsx line 18. -/
def CA_SDI_RATE : ℚ := 0.013

/-- TaxCalculator.jsx line 19. -/
def NIIT_RATE : ℚ := 0.038

/-- TaxCalculator.jsx line 20. -/
def NIIT_THRESHOLD_MFJ : ℚ := 250000

/-- The span available inside one bracket, TaxCalculator.jsx line 49:
Math.min(remainingIncome, bracket.max - (bracket.min > 0 ? bracket.min - 1 : 0)).
For hi = Infinity the JavaScript min yields remainingIncome itself. -/
def taxableInBracket (remaining : ℚ) (b : TaxBracket) : ℚ :=
  match b.hi with
  | none => remaining
  | some m => min remaining (m - (if 0 < b.lo then b.lo - 1 else 0))

/-- calculateTax, TaxCalculator.jsx lines 44-53: walk the brackets,
take the taxable span in each, accumulate span times rate, stop once
remaining income is exhausted. -/
def calculateTax : ℚ → List TaxBracket → ℚ
  | _, [] => 0
  | remaining, b :: rest =>
    if remaining ≤ 0 then 0
    else
      let t := taxableInBracket remaining b
      if 0 < t then t * b.rate + calculateTax (remaining - t) rest
      else calculateTax remaining rest

/-- The configuration precondition of the spec: brackets are ascending and
contiguous (each finite ceiling is followed by a bracket starting one unit
above it). -/
def AscContiguous : List TaxBracket → Prop
  | [] => True
  | [_] => True
  | b :: b' :: rest =>
    (∃ m, b.hi = some m ∧ b.lo ≤ m ∧ b'.lo = m + 1) ∧ AscContiguous (b' :: rest)

/-- Allocation of long-term gains to the 0 percent tier,
TaxCalculator.jsx lines 450-453: min(remainingLTCG, max(0, zeroRateMax - ordinaryIncome)). -/
def taxableAtZero (ordinaryIncome ltg : ℚ) : ℚ :=
  min ltg (max 0 (zeroRateMax - ordinaryIncome))

/-- Allocation of long-term gains to the 15 percent tier,
TaxCalculator.jsx lines 454-455: after the zero-rate allocation,
min(remainingLTCG, max(0, fifteenRateMax - max(zeroRateMax, ordinaryIncome))). -/
def taxableAtFifteen (ordinaryIncome ltg : ℚ) : ℚ :=
  min (ltg - taxableAtZero ordinaryIncome ltg)
    (max 0 (fifteenRateMax - max zeroRateMax ordinaryIncome))

/-- The residual long-term gain left for the 20 percent tier,
TaxCalculator.jsx lines 453-458. -/
def ltcgRemaining (ordinaryIncome ltg : ℚ) : ℚ :=
  ltg - taxableAtZero ordinaryIncome ltg - taxableAtFifteen ordinaryIncome ltg

/-- The capital-gains stacking tax, TaxCalculator.jsx lines 449-458
(the identical block also appears at lines 106-117 and 488-495):
15 percent on the middle tier plus 20 percent on any positive residual. -/
def capitalGainsTaxOf (ordinaryIncome ltg : ℚ) : ℚ :=
  taxableAtFifteen ordinaryIncome ltg * 0.15 +
    (if 0 < ltcgRemaining ordinaryIncome ltg then ltcgRemaining ordinaryIncome ltg * 0.20 else 0)

/-- The month-by-month interest stream of the amortization loop,
TaxCalculator.jsx lines 69-77: while the balance is positive, accrue
interest = balance * monthlyRate and reduce the balance by
payment - interest; the fuel argument is the month bound years*12. -/
def monthlyInterests (r payment : ℚ) : ℕ → ℚ → List ℚ
  | 0, _ => []
  | k + 1, balance =>
    if 0 < balance then
      balance * r :: monthlyInterests r payment k (balance - (payment - balance * r))
    else []

/-- Sum of a 12-month block of the interest stream, TaxCalculator.jsx
lines 70-74 (yearInterest accumulation; months past the end of the
stream contribute nothing, matching the zero-filled array). -/
def sumSlice (l : List ℚ) (s n : ℕ) : ℚ := ((l.drop s).take n).sum

/-- getInterestSchedule, TaxCalculator.jsx lines 64-79: empty for a zero
amount or rate, otherwise the per-year interest totals of a 30-year
fixed-payment amortization, one entry per requested year. -/
def getInterestSchedule (amount annualRate : ℚ) (years : ℕ) : List (ℕ × ℚ) :=
  if amount = 0 ∨ annualRate = 0 then []
  else
    let r := annualRate / 100 / 12
    let p := (1 + r) ^ (360 : ℕ)
    let monthlyPayment := amount * (r * p) / (p - 1)
    let ms := monthlyInterests r monthlyPayment (years * 12) amount
    (List.range years).map (fun j => (j + 1, sumSlice ms (12 * j) 12))

/-- The first-year interest used for deduction computation,
TaxCalculator.jsx lines 421-431: getInterestSchedule(years = 1)[0]?.interest or 0. -/
def firstYearInterest (amount annualRate : ℚ) : ℚ :=
  match (getInterestSchedule amount annualRate 1).head? with
  | some e => e.2
  | none => 0

/-- calculateMonthlyHousingCost, TaxCalculator.jsx lines 54-62. -/
def calculateMonthlyHousingCost (amount rate propTax insurance : ℚ) : ℚ :=
  if amount = 0 ∨ rate = 0 then 0
  else
    let monthlyRate := rate / 100 / 12
    let p := (1 + monthlyRate) ^ (360 : ℕ)
    amount * (monthlyRate * p) / (p - 1) + propTax / 12 + insurance / 12

/-- The six comparable jurisdictions of STATE_TAX_DATA, TaxCalculator.jsx lines 27-39. -/
inductive UsState where
  | california
  | colorado
  | ohio
  | northCarolina
  | texas
  | florida
deriving DecidableEq

/-- STATE_TAX_DATA, TaxCalculator.jsx lines 27-39. -/
def STATE_TAX_DATA : UsState → List TaxBracket
  | .california =>
    [⟨0.01, 0, some 22108⟩, ⟨0.02, 22109, some 52420⟩,
     ⟨0.04, 52421, some 82734⟩, ⟨0.06, 82735, some 114902⟩,
     ⟨0.08, 114903, some 145194⟩, ⟨0.093, 145195, some 742568⟩,
     ⟨0.103, 742569, some 891080⟩, ⟨0.113, 891081, some 1485132⟩,
     ⟨0.123, 1485133, none⟩]
  | .colorado => [⟨0.044, 0, none⟩]
  | .ohio => [⟨0.00, 0, some 26050⟩, ⟨0.0275, 26051, some 100000⟩, ⟨0.035, 100001, none⟩]
  | .northCarolina => [⟨0.0425, 0, none⟩]
  | .texas => []
  | .florida => []

/-- STATE_STANDARD_DEDUCTIONS_MFJ, TaxCalculator.jsx lines 22-25
(the engine reads it as a lookup defaulting to 0, line 434). -/
def STATE_STANDARD_DEDUCTIONS_MFJ : UsState → ℚ
  | .california => 10404
  | .northCarolina => 25500
  | _ => 0

/-- The household input fields of the engine, TaxCalculator.jsx lines 279-285
after the Number() coercion of lines 390-396. -/
structure Household where
  income : ℚ
  stGains : ℚ
  ltGains : ℚ
  hsa : ℚ
  k401 : ℚ
  medicalPremiums : ℚ
  otherItemized : ℚ
deriving DecidableEq

/-- The per-state housing inputs, TaxCalculator.jsx lines 287-293 after
the Number() coercion of lines 410-415. -/
structure StateHousingInputs where
  mortgageAmount : ℚ
  mortgageRate : ℚ
  propertyTax : ℚ
  homeInsurance : ℚ
  localTaxRate : ℚ
  monthlyRent : ℚ
deriving DecidableEq

/-- totalIncome, TaxCalculator.jsx line 398. -/
def totalIncomeOf (h : Household) : ℚ := h.income + h.stGains + h.ltGains

/-- agi, TaxCalculator.jsx lines 399-400. -/
def agiOf (h : Household) : ℚ := totalIncomeOf h - (h.k401 + h.hsa + h.medicalPremiums)

/-- ficaTax, TaxCalculator.jsx lines 402-406. -/
def ficaTaxOf (h : Household) : ℚ :=
  min h.income 182400 * 0.062 + h.income * 0.0145 +
    (if 250000 < agiOf h then (agiOf h - 250000) * 0.009 else 0)

/-- The rent sub-outcome of one jurisdiction, TaxCalculator.jsx lines 474-506
and 522-537. -/
structure RentOutcome where
  stateTaxableIncome : ℚ
  stateTax : ℚ
  sdiTax : ℚ
  localTax : ℚ
  totalSaltPaid : ℚ
  cappedSalt : ℚ
  deductionToUse : ℚ
  federalTaxableIncome : ℚ
  capitalGainsTax : ℚ
  niit : ℚ
  totalFederalTax : ℚ
  totalTaxBurden : ℚ
  annualTakeHome : ℚ
  monthlyTakeHome : ℚ
  monthlyHousingCost : ℚ
  monthlyNetCash : ℚ
deriving DecidableEq

/-- The full computed outcome for one jurisdiction, TaxCalculator.jsx
lines 408-538, including the intermediates the spec talks about. -/
structure StateOutcome where
  agi : ℚ
  ficaTax : ℚ
  stateAgi : ℚ
  stateAnnualMortgageInterest : ℚ
  federalAnnualMortgageInterest : ℚ
  stateItemizedDed : ℚ
  stateStandardDed : ℚ
  stateDeductionToUse : ℚ
  stateTaxableIncome : ℚ
  stateTax : ℚ
  sdiTax : ℚ
  localTax : ℚ
  totalSaltPaid : ℚ
  cappedSalt : ℚ
  totalFederalItemizedDeductions : ℚ
  deductionToUse : ℚ
  federalTaxableIncome : ℚ
  ordinaryIncome : ℚ
  ordinaryTax : ℚ
  capitalGainsTax : ℚ
  niit : ℚ
  totalFederalTax : ℚ
  totalTaxBurden : ℚ
  annualTakeHome : ℚ
  monthlyTakeHome : ℚ
  monthlyHousingCost : ℚ
  monthlyNetCash : ℚ
  rent : RentOutcome
deriving DecidableEq

/-- The per-jurisdiction body of the resultsByState computation,
TaxCalculator.jsx lines 408-538 (buy scenario then rent scenario). -/
def computeStateResult (h : Household) (s : UsState) (si : StateHousingInputs) : StateOutcome :=
  let grossIncome := h.income
  let shortTermGains := h.stGains
  let longTermGains := h.ltGains
  let agi := agiOf h
  let ficaTax := ficaTaxOf h
  let localTaxRateVal := si.localTaxRate / 100
  let stateAgi := if s = UsState.california then agi + h.hsa else agi
  let stateMortgageDebtLimit :=
    if s = UsState.california then CA_MORTGAGE_DEBT_LIMIT else FEDERAL_MORTGAGE_DEBT_LIMIT
  let stateDeductibleMortgagePrincipal := min si.mortgageAmount stateMortgageDebtLimit
  let stateAnnualMortgageInterest :=
    firstYearInterest stateDeductibleMortgagePrincipal si.mortgageRate
  let federalDeductibleMortgagePrincipal := min si.mortgageAmount FEDERAL_MORTGAGE_DEBT_LIMIT
  let federalAnnualMortgageInterest :=
    firstYearInterest federalDeductibleMortgagePrincipal si.mortgageRate
  let stateItemizedDed := stateAnnualMortgageInterest + si.propertyTax + h.otherItemized
  let stateStandardDed := STATE_STANDARD_DEDUCTIONS_MFJ s
  let stateDeductionToUse := max stateItemizedDed stateStandardDed
  let stateTaxableIncome := max 0 (stateAgi - stateDeductionToUse)
  let stateTax := calculateTax stateTaxableIncome (STATE_TAX_DATA s)
  let sdiTax := if s = UsState.california then grossIncome * CA_SDI_RATE else 0
  let localTax := if 0 < localTaxRateVal then agi * localTaxRateVal else 0
  let totalSaltPaid := stateTax + si.propertyTax + sdiTax + localTax
  let cappedSalt := min totalSaltPaid SALT_CAP
  let totalFederalItemizedDeductions := federalAnnualMortgageInterest + cappedSalt + h.otherItemized
  let deductionToUse := max totalFederalItemizedDeductions FEDERAL_STANDARD_DEDUCTION_MFJ
  let federalTaxableIncome := max 0 (agi - deductionToUse)
  let ordinaryIncome := federalTaxableIncome - longTermGains
  let ordinaryTax := calculateTax ordinaryIncome FEDERAL_BRACKETS_MFJ
  let capitalGainsTax := capitalGainsTaxOf ordinaryIncome longTermGains
  let niitBase := max 0 (min (shortTermGains + longTermGains) (agi - NIIT_THRESHOLD_MFJ))
  let niit := niitBase * NIIT_RATE
  let totalFederalTax := ordinaryTax + capitalGainsTax + niit
  let totalTaxBurden := totalFederalTax + ficaTax + stateTax + sdiTax + localTax
  let annualTakeHome := totalIncomeOf h - totalTaxBurden - h.k401 - h.hsa - h.medicalPremiums
  let monthlyTakeHome := annualTakeHome / 12
  let monthlyHousingCost :=
    calculateMonthlyHousingCost si.mortgageAmount si.mortgageRate si.propertyTax si.homeInsurance
  let monthlyNetCash := monthlyTakeHome - monthlyHousingCost
  let rentStateAgi := if s = UsState.california then agi + h.hsa else agi
  let rentStateStandardDed := STATE_STANDARD_DEDUCTIONS_MFJ s
  let rentStateTaxableIncome := max 0 (rentStateAgi - rentStateStandardDed)
  let rentStateTax := calculateTax rentStateTaxableIncome (STATE_TAX_DATA s)
  let rentSdiTax := if s = UsState.california then grossIncome * CA_SDI_RATE else 0
  let rentLocalTax := if 0 < localTaxRateVal then agi * localTaxRateVal else 0
  let rentTotalSaltPaid := rentStateTax + rentSdiTax + rentLocalTax
  let rentCappedSalt := min rentTotalSaltPaid SALT_CAP
  let rentDeductionToUse := max FEDERAL_STANDARD_DEDUCTION_MFJ 0
  let rentFederalTaxableIncome := max 0 (agi - rentDeductionToUse)
  let rentOrdinaryIncome := rentFederalTaxableIncome - longTermGains
  let rentOrdinaryTax := calculateTax rentOrdinaryIncome FEDERAL_BRACKETS_MFJ
  let rentCapitalGainsTax := capitalGainsTaxOf rentOrdinaryIncome longTermGains
  let rentNiitBase := max 0 (min (shortTermGains + longTermGains) (agi - NIIT_THRESHOLD_MFJ))
  let rentNiit := rentNiitBase * NIIT_RATE
  let rentTotalFederalTax := rentOrdinaryTax + rentCapitalGainsTax + rentNiit
  let rentTotalTaxBurden := rentTotalFederalTax + ficaTax + rentStateTax + rentSdiTax + rentLocalTax
  let rentAnnualTakeHome :=
    totalIncomeOf h - rentTotalTaxBurden - h.k401 - h.hsa - h.medicalPremiums
  let rentMonthlyTakeHome := rentAnnualTakeHome / 12
  let rentMonthlyHousingCost := si.monthlyRent
  let rentMonthlyNetCash := rentMonthlyTakeHome - rentMonthlyHousingCost
  { agi := agi
    ficaTax := ficaTax
    stateAgi := stateAgi
    stateAnnualMortgageInterest := stateAnnualMortgageInterest
    federalAnnualMortgageInterest := federalAnnualMortgageInterest
    stateItemizedDed := stateItemizedDed
    stateStandardDed := stateStandardDed
    stateDeductionToUse := stateDeductionToUse
    stateTaxableIncome := stateTaxableIncome
    stateTax := stateTax
    sdiTax := sdiTax
    localTax := localTax
    totalSaltPaid := totalSaltPaid
    cappedSalt := cappedSalt
    totalFederalItemizedDeductions := totalFederalItemizedDeductions
    deductionToUse := deductionToUse
    federalTaxableIncome := federalTaxableIncome
    ordinaryIncome := ordinaryIncome
    ordinaryTax := ordinaryTax
    capitalGainsTax := capitalGainsTax
    niit := niit
    totalFederalTax := totalFederalTax
    totalTaxBurden := totalTaxBurden
    annualTakeHome := annualTakeHome
    monthlyTakeHome := monthlyTakeHome
    monthlyHousingCost := monthlyHousingCost
    monthlyNetCash := monthlyNetCash
    rent :=
      { stateTaxableIncome := rentStateTaxableIncome
        stateTax := rentStateTax
        sdiTax := rentSdiTax
        localTax := rentLocalTax
        totalSaltPaid := rentTotalSaltPaid
        cappedSalt := rentCappedSalt
        deductionToUse := rentDeductionToUse
        federalTaxableIncome := rentFederalTaxableIncome
        capitalGainsTax := rentCapitalGainsTax
        niit := rentNiit
        totalFederalTax := rentTotalFederalTax
        totalTaxBurden := rentTotalTaxBurden
        annualTakeHome := rentAnnualTakeHome
        monthlyTakeHome := rentMonthlyTakeHome
        monthlyHousingCost := rentMonthlyHousingCost
        monthlyNetCash := rentMonthlyNetCash } }

/-- A saved scenario blob, handleSaveScenario, TaxCalculator.jsx lines 316-324.
A field of none models a key missing from a loaded blob. -/
structure ScenarioBlob where
  income : Option ℚ
  stGains : Option ℚ
  ltGains : Option ℚ
  hsa : Option ℚ
  k401 : Option ℚ
  medicalPremiums : Option ℚ
  otherItemized : Option ℚ
  selectedStates : Option (List UsState)
  stateInputs : Option (UsState → Option StateHousingInputs)

/-- The JavaScript idiom scenario.field || default of handleLoadScenario,
TaxCalculator.jsx lines 329-335: a missing field and a zero field both
fall back to the default (zero is falsy). -/
def numOrDefault (v : Option ℚ) (d : ℚ) : ℚ :=
  match v with
  | none => d
  | some x => if x = 0 then d else x

/-- handleSaveScenario, TaxCalculator.jsx lines 316-324: the blob stores
every household field, the selected jurisdiction list and the
per-jurisdiction housing-input mapping. -/
def saveScenarioBlob (h : Household) (ss : List UsState)
    (m : UsState → Option StateHousingInputs) : ScenarioBlob :=
  { income := some h.income
    stGains := some h.stGains
    ltGains := some h.ltGains
    hsa := some h.hsa
    k401 := some h.k401
    medicalPremiums := some h.medicalPremiums
    otherItemized := some h.otherItemized
    selectedStates := some ss
    stateInputs := some m }

/-- handleLoadScenario, TaxCalculator.jsx lines 326-340: each numeric
field is read with the || default idiom; the jurisdiction list and the
housing-input mapping are restored as stored when present (a stored
array or object is always truthy in JavaScript). -/
def loadScenarioBlob (b : ScenarioBlob) :
    Household × List UsState × (UsState → Option StateHousingInputs) :=
  (⟨numOrDefault b.income 250000, numOrDefault b.stGains 5000,
    numOrDefault b.ltGains 10000, numOrDefault b.hsa 8300,
    numOrDefault b.k401 46000, numOrDefault b.medicalPremiums 6000,
    numOrDefault b.otherItemized 5000⟩,
   b.selectedStates.getD [UsState.california, UsState.texas],
   b.stateInputs.getD (fun _ => none))

/-- The per-state years-to-target computation of backsolverCalculations,
TaxCalculator - Backup.jsx lines 896-911, before the display clamp; none
models the Infinity sentinel. rate is the growth rate (already divided
by 100), currentAssets/targetAssets/contribution as in the source. -/
noncomputable def backsolveYearsRaw (rate currentAssets targetAssets contribution : ℝ) :
    Option ℝ :=
  if contribution ≤ 0 ∧ currentAssets * rate ≤ 0 then none
  else if 0 < rate then
    if 0 < targetAssets * rate + contribution ∧ 0 < currentAssets * rate + contribution then
      some (Real.log ((targetAssets * rate + contribution) /
        (currentAssets * rate + contribution)) / Real.log (1 + rate))
    else none
  else if 0 < contribution then some ((targetAssets - currentAssets) / contribution)
  else none

/-- The years value actually reported in the backsolver table,
TaxCalculator - Backup.jsx line 913: finalYears = years > 100 ? Infinity : years. -/
noncomputable def backsolveFinalYears (rate currentAssets targetAssets contribution : ℝ) :
    Option ℝ :=
  match backsolveYearsRaw rate currentAssets targetAssets contribution with
  | none => none
  | some y => if 100 < y then none else some y

theorem calculateTax_of_nonpos (bs : List TaxBracket) (x : ℚ) (hx : x ≤ 0) :
    calculateTax x bs = 0 := by
  cases bs with
  | nil => rfl
  | cons b rest => simp [calculateTax, hx]

theorem taxableInBracket_le (x : ℚ) (b : TaxBracket) : taxableInBracket x b ≤ x := by
  cases hb : b.hi with
  | none => simp [taxableInBracket, hb]
  | some m => simp [taxableInBracket, hb]

theorem taxableInBracket_mono (b : TaxBracket) {x y : ℚ} (hxy : x ≤ y) :
    taxableInBracket x b ≤ taxableInBracket y b := by
  cases hb : b.hi with
  | none => simpa [taxableInBracket, hb] using hxy
  | some m =>
    simp only [taxableInBracket, hb]
    exact min_le_min hxy le_rfl

theorem taxableInBracket_sub_mono (b : TaxBracket) {x y : ℚ} (hxy : x ≤ y) :
    x - taxableInBracket x b ≤ y - taxableInBracket y b := by
  cases hb : b.hi with
  | none => simp [taxableInBracket, hb]
  | some m =>
    simp only [taxableInBracket, hb]
    set s := m - (if 0 < b.lo then b.lo - 1 else 0) with hs
    rcases le_total x s with h | h
    · rw [min_eq_left h]
      have : min y s ≤ y := min_le_left _ _
      linarith
    · rw [min_eq_right h, min_eq_right (le_trans h hxy)]
      linarith

theorem taxableInBracket_pos_of (b : TaxBracket) {x y : ℚ} (hx : 0 < x) (_hxy : x ≤ y)
    (h : 0 < taxableInBracket y b) : 0 < taxableInBracket x b := by
  cases hb : b.hi with
  | none => simpa [taxableInBracket, hb] using hx
  | some m =>
    simp only [taxableInBracket, hb] at h ⊢
    rw [lt_min_iff] at h ⊢
    exact ⟨hx, h.2⟩

theorem calculateTax_nonneg (bs : List TaxBracket)
    (hr : ∀ b ∈ bs, 0 ≤ b.rate) (x : ℚ) : 0 ≤ calculateTax x bs := by
  induction bs generalizing x with
  | nil => simp [calculateTax]
  | cons b rest ih =>
    by_cases hx : x ≤ 0
    · rw [calculateTax_of_nonpos _ _ hx]
    · simp only [calculateTax, if_neg hx]
      by_cases ht : 0 < taxableInBracket x b
      · rw [if_pos ht]
        have h1 : 0 ≤ taxableInBracket x b * b.rate :=
          mul_nonneg (le_of_lt ht) (hr b (List.mem_cons_self b rest))
        have h2 := ih (fun b' hb' => hr b' (List.mem_cons_of_mem b hb'))
          (x - taxableInBracket x b)
        linarith
      · rw [if_neg ht]
        exact ih (fun b' hb' => hr b' (List.mem_cons_of_mem b hb')) x

theorem calculateTax_le_mul (bs : List TaxBracket) (rmax : ℚ) (h0 : 0 ≤ rmax)
    (hr : ∀ b ∈ bs, b.rate ≤ rmax) (x : ℚ) (hx : 0 ≤ x) :
    calculateTax x bs ≤ x * rmax := by
  induction bs generalizing x with
  | nil => simpa [calculateTax] using mul_nonneg hx h0
  | cons b rest ih =>
    by_cases hx0 : x ≤ 0
    · rw [calculateTax_of_nonpos _ _ hx0]
      exact mul_nonneg hx h0
    · simp only [calculateTax, if_neg hx0]
      by_cases ht : 0 < taxableInBracket x b
      · rw [if_pos ht]
        have hle : taxableInBracket x b ≤ x := taxableInBracket_le x b
        have h1 : taxableInBracket x b * b.rate ≤ taxableInBracket x b * rmax :=
          mul_le_mul_of_nonneg_left (hr b (List.mem_cons_self b rest)) (le_of_lt ht)
        have h2 : calculateTax (x - taxableInBracket x b) rest ≤
            (x - taxableInBracket x b) * rmax :=
          ih (fun b' hb' => hr b' (List.mem_cons_of_mem b hb'))
            (x - taxableInBracket x b) (by linarith)
        nlinarith
      · rw [if_neg ht]
        exact ih (fun b' hb' => hr b' (List.mem_cons_of_mem b hb')) x hx

theorem calculateTax_mono_lip (rmax : ℚ) (h0 : 0 ≤ rmax) (bs : List TaxBracket)
    (hr : ∀ b ∈ bs, 0 ≤ b.rate ∧ b.rate ≤ rmax) {x y : ℚ} (hxy : x ≤ y) :
    calculateTax x bs ≤ calculateTax y bs ∧
      calculateTax y bs - calculateTax x bs ≤ (y - x) * rmax := by
  induction bs generalizing x y with
  | nil =>
    refine ⟨le_rfl, ?_⟩
    simp only [calculateTax]
    nlinarith
  | cons b rest ih =>
    have hrb : 0 ≤ b.rate := (hr b (List.mem_cons_self b rest)).1
    have hrb2 : b.rate ≤ rmax := (hr b (List.mem_cons_self b rest)).2
    have hrrest : ∀ b' ∈ rest, 0 ≤ b'.rate ∧ b'.rate ≤ rmax :=
      fun b' hb' => hr b' (List.mem_cons_of_mem b hb')
    by_cases hy : y ≤ 0
    · have hx : x ≤ 0 := le_trans hxy hy
      rw [calculateTax_of_nonpos _ _ hx, calculateTax_of_nonpos _ _ hy]
      exact ⟨le_rfl, by nlinarith⟩
    · push_neg at hy
      by_cases hx : x ≤ 0
      · rw [calculateTax_of_nonpos _ _ hx]
        have hn : 0 ≤ calculateTax y (b :: rest) :=
          calculateTax_nonneg _ (fun b' hb' => (hr b' hb').1) y
        have hub : calculateTax y (b :: rest) ≤ y * rmax :=
          calculateTax_le_mul _ rmax h0 (fun b' hb' => (hr b' hb').2) y (le_of_lt hy)
        have : y * rmax ≤ (y - x) * rmax :=
          mul_le_mul_of_nonneg_right (by linarith) h0
        exact ⟨hn, by linarith⟩
      · push_neg at hx
        simp only [calculateTax, if_neg (not_le.mpr hx), if_neg (not_le.mpr hy)]
        have htxy : taxableInBracket x b ≤ taxableInBracket y b :=
          taxableInBracket_mono b hxy
        have hsub : x - taxableInBracket x b ≤ y - taxableInBracket y b :=
          taxableInBracket_sub_mono b hxy
        by_cases htx : 0 < taxableInBracket x b
        · have hty : 0 < taxableInBracket y b := lt_of_lt_of_le htx htxy
          rw [if_pos htx, if_pos hty]
          obtain ⟨ih1, ih2⟩ := ih hrrest hsub
          have e1 : taxableInBracket x b * b.rate ≤ taxableInBracket y b * b.rate :=
            mul_le_mul_of_nonneg_right htxy hrb
          have e2 : (taxableInBracket y b - taxableInBracket x b) * b.rate ≤
              (taxableInBracket y b - taxableInBracket x b) * rmax :=
            mul_le_mul_of_nonneg_left hrb2 (by linarith)
          constructor
          · linarith
          · nlinarith
        · rw [if_neg htx]
          by_cases hty : 0 < taxableInBracket y b
          · exact absurd (taxableInBracket_pos_of b hx hxy hty) htx
          · rw [if_neg hty]
            exact ih hrrest hxy

/-- C3: for every bracket table satisfying the configuration precondition
(ascending contiguous brackets with rates between 0 and some bound rmax),
calculateTax is non-decreasing in income, and its increase over any income
increment is at most the increment times the largest marginal rate, so the
function is (Lipschitz-) continuous at every bracket boundary: no jump
beyond the marginal rate applied to the boundary unit. -/
theorem c3_progressive_tax_monotone_lipschitz (bs : List TaxBracket) (rmax : ℚ)
    (_hA : AscContiguous bs)
    (hr : ∀ b ∈ bs, 0 ≤ b.rate ∧ b.rate ≤ rmax) (h0 : 0 ≤ rmax)
    {x y : ℚ} (hxy : x ≤ y) :
    calculateTax x bs ≤ calculateTax y bs ∧
      calculateTax y bs - calculateTax x bs ≤ (y - x) * rmax :=
  calculateTax_mono_lip rmax h0 bs hr hxy

/-- Witness for C3 at the federal bracket table, across the first bracket
boundary 23850 to 23851, with rmax the top marginal rate 0.37. -/
theorem c3_progressive_tax_monotone_lipschitz_witness :
    AscContiguous FEDERAL_BRACKETS_MFJ ∧ (0 : ℚ) ≤ 0.37 ∧
      calculateTax 23850 FEDERAL_BRACKETS_MFJ ≤ calculateTax 23851 FEDERAL_BRACKETS_MFJ ∧
      calculateTax 23851 FEDERAL_BRACKETS_MFJ - calculateTax 23850 FEDERAL_BRACKETS_MFJ ≤
        ((23851 : ℚ) - 23850) * 0.37 := by
  have hA : AscContiguous FEDERAL_BRACKETS_MFJ := by
    refine ⟨⟨23850, rfl, by norm_num, by norm_num⟩,
      ⟨96950, rfl, by norm_num, by norm_num⟩,
      ⟨206700, rfl, by norm_num, by norm_num⟩,
      ⟨394600, rfl, by norm_num, by norm_num⟩,
      ⟨501050, rfl, by norm_num, by norm_num⟩,
      ⟨751600, rfl, by norm_num, by norm_num⟩, trivial⟩
  have hr : ∀ b ∈ FEDERAL_BRACKETS_MFJ, 0 ≤ b.rate ∧ b.rate ≤ (0.37 : ℚ) := by
    intro b hb
    simp only [FEDERAL_BRACKETS_MFJ, List.mem_cons, List.not_mem_nil, or_false] at hb
    rcases hb with rfl | rfl | rfl | rfl | rfl | rfl | rfl <;> exact ⟨by norm_num, by norm_num⟩
  have h := c3_progressive_tax_monotone_lipschitz FEDERAL_BRACKETS_MFJ 0.37 hA hr
    (by norm_num) (by norm_num : (23850 : ℚ) ≤ 23851)
  exact ⟨hA, by norm_num, h.1, h.2⟩

/-- C4: when ordinary taxable income is at or above the top LTCG tier
ceiling (the 15 percent bracket ceiling fifteenRateMax), the stacking
computation allocates zero to the 0 and 15 percent tiers and taxes the
whole gain at 20 percent. -/
theorem c4_ltcg_top_tier (o ltg : ℚ) (ho : fifteenRateMax ≤ o) (hg : 0 ≤ ltg) :
    taxableAtZero o ltg = 0 ∧ taxableAtFifteen o ltg = 0 ∧
      capitalGainsTaxOf o ltg = 0.20 * ltg := by
  have hbig : zeroRateMax ≤ o := by
    rw [zeroRateMax]; rw [fifteenRateMax] at ho; linarith
  have hz : taxableAtZero o ltg = 0 := by
    rw [taxableAtZero, max_eq_left (by rw [zeroRateMax]; rw [fifteenRateMax] at ho; linarith),
      min_eq_right hg]
  have hf : taxableAtFifteen o ltg = 0 := by
    rw [taxableAtFifteen, hz, sub_zero, max_eq_right hbig,
      max_eq_left (by linarith : fifteenRateMax - o ≤ 0), min_eq_right hg]
  have hrem : ltcgRemaining o ltg = ltg := by
    rw [ltcgRemaining, hz, hf]; ring
  refine ⟨hz, hf, ?_⟩
  rw [capitalGainsTaxOf, hf, hrem]
  rcases eq_or_lt_of_le hg with h | h
  · rw [if_neg (by rw [← h]; exact lt_irrefl 0), ← h]; norm_num
  · rw [if_pos h]; ring

/-- Witness for C4 at ordinary income 600000 and a gain of 1000. -/
theorem c4_ltcg_top_tier_witness :
    fifteenRateMax ≤ (600000 : ℚ) ∧ (0 : ℚ) ≤ 1000 ∧
      capitalGainsTaxOf 600000 1000 = 0.20 * 1000 :=
  ⟨by rw [fifteenRateMax]; norm_num, by norm_num,
    (c4_ltcg_top_tier 600000 1000 (by rw [fifteenRateMax]; norm_num) (by norm_num)).2.2⟩

/-- C9: for every nonnegative long-term gain and every ordinary taxable
income, including negative ones, the stacking allocations to the 0, 15
and residual 20 percent tiers are each nonnegative and sum exactly to
the total gain. -/
theorem c9_ltcg_partition (o ltg : ℚ) (hg : 0 ≤ ltg) :
    0 ≤ taxableAtZero o ltg ∧ 0 ≤ taxableAtFifteen o ltg ∧ 0 ≤ ltcgRemaining o ltg ∧
      taxableAtZero o ltg + taxableAtFifteen o ltg + ltcgRemaining o ltg = ltg := by
  have h0 : 0 ≤ taxableAtZero o ltg := by
    rw [taxableAtZero]; exact le_min hg (le_max_left 0 _)
  have hle : taxableAtZero o ltg ≤ ltg := by
    rw [taxableAtZero]; exact min_le_left _ _
  have h15 : 0 ≤ taxableAtFifteen o ltg := by
    rw [taxableAtFifteen]; exact le_min (by linarith) (le_max_left 0 _)
  have hle2 : taxableAtFifteen o ltg ≤ ltg - taxableAtZero o ltg := by
    rw [taxableAtFifteen]; exact min_le_left _ _
  have hrem : 0 ≤ ltcgRemaining o ltg := by
    rw [ltcgRemaining]; linarith
  exact ⟨h0, h15, hrem, by rw [ltcgRemaining]; ring⟩

/-- Witness for C9 at negative ordinary income and a gain of 10000. -/
theorem c9_ltcg_partition_witness :
    (0 : ℚ) ≤ 10000 ∧
      (0 ≤ taxableAtZero (-5000) 10000 ∧ 0 ≤ taxableAtFifteen (-5000) 10000 ∧
        0 ≤ ltcgRemaining (-5000) 10000 ∧
        taxableAtZero (-5000) 10000 + taxableAtFifteen (-5000) 10000 +
          ltcgRemaining (-5000) 10000 = 10000) :=
  ⟨by norm_num, c9_ltcg_partition (-5000) 10000 (by norm_num)⟩

/-- C5: at both the state and the federal level the resolved deduction is
the max of the itemized total and the standard deduction: it is at least
each of them and equal to one of them, never a blended value. -/
theorem c5_deduction_max_selection (h : Household) (s : UsState) (si : StateHousingInputs) :
    (computeStateResult h s si).stateDeductionToUse =
        max (computeStateResult h s si).stateItemizedDed
          (computeStateResult h s si).stateStandardDed ∧
      (computeStateResult h s si).stateItemizedDed ≤
        (computeStateResult h s si).stateDeductionToUse ∧
      (computeStateResult h s si).stateStandardDed ≤
        (computeStateResult h s si).stateDeductionToUse ∧
      ((computeStateResult h s si).stateDeductionToUse =
          (computeStateResult h s si).stateItemizedDed ∨
        (computeStateResult h s si).stateDeductionToUse =
          (computeStateResult h s si).stateStandardDed) ∧
      (computeStateResult h s si).deductionToUse =
        max (computeStateResult h s si).totalFederalItemizedDeductions
          FEDERAL_STANDARD_DEDUCTION_MFJ ∧
      (computeStateResult h s si).totalFederalItemizedDeductions ≤
        (computeStateResult h s si).deductionToUse ∧
      FEDERAL_STANDARD_DEDUCTION_MFJ ≤ (computeStateResult h s si).deductionToUse ∧
      ((computeStateResult h s si).deductionToUse =
          (computeStateResult h s si).totalFederalItemizedDeductions ∨
        (computeStateResult h s si).deductionToUse = FEDERAL_STANDARD_DEDUCTION_MFJ) := by
  have e1 : (computeStateResult h s si).stateDeductionToUse =
      max (computeStateResult h s si).stateItemizedDed
        (computeStateResult h s si).stateStandardDed := rfl
  have e2 : (computeStateResult h s si).deductionToUse =
      max (computeStateResult h s si).totalFederalItemizedDeductions
        FEDERAL_STANDARD_DEDUCTION_MFJ := rfl
  refine ⟨e1, ?_, ?_, ?_, e2, ?_, ?_, ?_⟩
  · rw [e1]; exact le_max_left _ _
  · rw [e1]; exact le_max_right _ _
  · rw [e1]; exact max_choice _ _
  · rw [e2]; exact le_max_left _ _
  · rw [e2]; exact le_max_right _ _
  · rw [e2]; exact max_choice _ _

/-- C6: the SALT component of the federal itemized total is the SALT
sub-total (state tax + property tax + payroll-style levy + local tax)
capped at SALT_CAP, so it never exceeds the cap, and mortgage interest
and other itemizable amounts are added uncapped on top of it. -/
theorem c6_salt_cap_invariant (h : Household) (s : UsState) (si : StateHousingInputs) :
    (computeStateResult h s si).cappedSalt ≤ SALT_CAP ∧
      (computeStateResult h s si).cappedSalt =
        min (computeStateResult h s si).totalSaltPaid SALT_CAP ∧
      (computeStateResult h s si).totalSaltPaid =
        (computeStateResult h s si).stateTax + si.propertyTax +
          (computeStateResult h s si).sdiTax + (computeStateResult h s si).localTax ∧
      (computeStateResult h s si).totalFederalItemizedDeductions =
        (computeStateResult h s si).federalAnnualMortgageInterest +
          (computeStateResult h s si).cappedSalt + h.otherItemized := by
  have e : (computeStateResult h s si).cappedSalt =
      min (computeStateResult h s si).totalSaltPaid SALT_CAP := rfl
  refine ⟨?_, e, rfl, rfl⟩
  rw [e]; exact min_le_right _ _

/-- C10: the AGI, FICA and NIIT components of the outcome depend only on
the household inputs: they are identical across jurisdictions and across
housing inputs, and the rent sub-outcome carries the same NIIT as the
buy outcome. -/
theorem c10_agi_fica_niit_jurisdiction_independent (h : Household)
    (s1 s2 : UsState) (si1 si2 : StateHousingInputs) :
    (computeStateResult h s1 si1).agi = (computeStateResult h s2 si2).agi ∧
      (computeStateResult h s1 si1).ficaTax = (computeStateResult h s2 si2).ficaTax ∧
      (computeStateResult h s1 si1).niit = (computeStateResult h s2 si2).niit ∧
      (computeStateResult h s1 si1).rent.niit = (computeStateResult h s1 si1).niit :=
  ⟨rfl, rfl, rfl, rfl⟩

theorem monthlyInterests_take (r p : ℚ) (k : ℕ) :
    ∀ k', k ≤ k' → ∀ b, (monthlyInterests r p k' b).take k = monthlyInterests r p k b := by
  induction k with
  | zero => intro k' _ b; simp [monthlyInterests]
  | succ k ih =>
    intro k' hk b
    obtain ⟨k'', rfl⟩ : ∃ k'', k' = k'' + 1 := ⟨k' - 1, by omega⟩
    by_cases hb : 0 < b
    · simp only [monthlyInterests, if_pos hb, List.take_succ_cons]
      rw [ih k'' (by omega) _]
    · simp [monthlyInterests, hb]

/-- C8: for nonzero principal and nonzero annual rate, the first entry of
the amortization schedule does not depend on the requested schedule
length, so the single-year call used for deduction computation returns
exactly the first entry of any longer (for example 10-year) schedule. -/
theorem c8_first_year_interest_independent (amount annualRate : ℚ) (y : ℕ)
    (ha : amount ≠ 0) (hr : annualRate ≠ 0) (hy : 1 ≤ y) :
    (getInterestSchedule amount annualRate y).head? =
      (getInterestSchedule amount annualRate 1).head? := by
  have hg : ¬(amount = 0 ∨ annualRate = 0) := by push_neg; exact ⟨ha, hr⟩
  simp only [getInterestSchedule, if_neg hg]
  rw [List.head?_eq_getElem?, List.head?_eq_getElem?, List.getElem?_map, List.getElem?_map,
    List.getElem?_range (by omega : 0 < y), List.getElem?_range (by omega : (0 : ℕ) < 1)]
  simp only [Option.map_some']
  have hs : ∀ n : ℕ, 12 ≤ n → sumSlice
      (monthlyInterests (annualRate / 100 / 12)
        (amount * (annualRate / 100 / 12 * (1 + annualRate / 100 / 12) ^ (360 : ℕ)) /
          ((1 + annualRate / 100 / 12) ^ (360 : ℕ) - 1)) n amount) (12 * 0) 12 =
      sumSlice
        (monthlyInterests (annualRate / 100 / 12)
          (amount * (annualRate / 100 / 12 * (1 + annualRate / 100 / 12) ^ (360 : ℕ)) /
            ((1 + annualRate / 100 / 12) ^ (360 : ℕ) - 1)) 12 amount) (12 * 0) 12 := by
    intro n hn
    rw [sumSlice, sumSlice]
    simp only [Nat.mul_zero, List.drop_zero]
    rw [monthlyInterests_take _ _ 12 n hn, monthlyInterests_take _ _ 12 12 le_rfl]
  rw [hs (y * 12) (by omega), hs (1 * 12) (by omega)]

/-- Witness for C8: principal 100, rate 12 percent, 10-year schedule
versus the single-year call. -/
theorem c8_first_year_interest_independent_witness :
    (100 : ℚ) ≠ 0 ∧ (12 : ℚ) ≠ 0 ∧ (1 : ℕ) ≤ 10 ∧
      (getInterestSchedule 100 12 10).head? = (getInterestSchedule 100 12 1).head? :=
  ⟨by norm_num, by norm_num, by norm_num,
    c8_first_year_interest_independent 100 12 10 (by norm_num) (by norm_num) (by norm_num)⟩

/-- C2 (amended): saving a scenario blob and loading it back reproduces
the identical engine inputs, and hence identical outcomes for every
jurisdiction, provided every saved numeric household field is nonzero;
the || defaulting of the loader conflates a zero field with a missing
one, so zero-valued fields do not round-trip (see the counterexample).
Missing fields are defaulted (income 250000, retirement contribution
46000) and loading never fails on missing keys. -/
theorem c2_scenario_roundtrip_nonzero (h : Household) (ss : List UsState)
    (m : UsState → Option StateHousingInputs)
    (h1 : h.income ≠ 0) (h2 : h.stGains ≠ 0) (h3 : h.ltGains ≠ 0) (h4 : h.hsa ≠ 0)
    (h5 : h.k401 ≠ 0) (h6 : h.medicalPremiums ≠ 0) (h7 : h.otherItemized ≠ 0) :
    loadScenarioBlob (saveScenarioBlob h ss m) = (h, ss, m) ∧
      ∀ s si, computeStateResult (loadScenarioBlob (saveScenarioBlob h ss m)).1 s si =
        computeStateResult h s si := by
  have e : loadScenarioBlob (saveScenarioBlob h ss m) = (h, ss, m) := by
    simp only [loadScenarioBlob, saveScenarioBlob, numOrDefault, Option.getD_some]
    rw [if_neg h1, if_neg h2, if_neg h3, if_neg h4, if_neg h5, if_neg h6, if_neg h7]
  refine ⟨e, fun s si => ?_⟩
  have e1 : (loadScenarioBlob (saveScenarioBlob h ss m)).1 = h := by rw [e]
  rw [e1]

/-- Witness for C2 at the default household inputs, all nonzero. -/
theorem c2_scenario_roundtrip_nonzero_witness :
    ((250000 : ℚ) ≠ 0 ∧ (5000 : ℚ) ≠ 0 ∧ (10000 : ℚ) ≠ 0 ∧ (8300 : ℚ) ≠ 0 ∧
        (46000 : ℚ) ≠ 0 ∧ (6000 : ℚ) ≠ 0 ∧ (5000 : ℚ) ≠ 0) ∧
      loadScenarioBlob (saveScenarioBlob ⟨250000, 5000, 10000, 8300, 46000, 6000, 5000⟩
          [UsState.california] (fun _ => none)) =
        (⟨250000, 5000, 10000, 8300, 46000, 6000, 5000⟩, [UsState.california], fun _ => none) :=
  ⟨⟨by norm_num, by norm_num, by norm_num, by norm_num, by norm_num, by norm_num, by norm_num⟩,
    (c2_scenario_roundtrip_nonzero ⟨250000, 5000, 10000, 8300, 46000, 6000, 5000⟩
      [UsState.california] (fun _ => none) (by norm_num) (by norm_num) (by norm_num)
      (by norm_num) (by norm_num) (by norm_num) (by norm_num)).1⟩

/-- Counterexample to C2 as stated: an all-zero household does not
round-trip — the loader turns the saved zero income into the default
250000, and the resulting engine outcome differs (AGI 204700 instead
of 0). -/
theorem c2_scenario_roundtrip_counterexample :
    (loadScenarioBlob (saveScenarioBlob ⟨0, 0, 0, 0, 0, 0, 0⟩ [UsState.texas]
        (fun _ => none))).1.income = 250000 ∧
      (Household.mk 0 0 0 0 0 0 0).income = 0 ∧
      (computeStateResult (loadScenarioBlob (saveScenarioBlob ⟨0, 0, 0, 0, 0, 0, 0⟩
          [UsState.texas] (fun _ => none))).1 UsState.texas ⟨0, 0, 0, 0, 0, 0⟩).agi = 204700 ∧
      (computeStateResult ⟨0, 0, 0, 0, 0, 0, 0⟩ UsState.texas ⟨0, 0, 0, 0, 0, 0⟩).agi = 0 := by
  have e : (loadScenarioBlob (saveScenarioBlob ⟨0, 0, 0, 0, 0, 0, 0⟩ [UsState.texas]
      (fun _ => none))).1 = (⟨250000, 5000, 10000, 8300, 46000, 6000, 5000⟩ : Household) := by
    simp [loadScenarioBlob, saveScenarioBlob, numOrDefault]
  refine ⟨by rw [e], rfl, ?_, ?_⟩
  · rw [e]
    show agiOf ⟨250000, 5000, 10000, 8300, 46000, 6000, 5000⟩ = 204700
    rw [agiOf, totalIncomeOf]; norm_num
  · show agiOf ⟨0, 0, 0, 0, 0, 0, 0⟩ = 0
    rw [agiOf, totalIncomeOf]; norm_num

theorem backsolveYearsRaw_pos (rate cur tgt c : ℝ) (hr : 0 < rate)
    (h1 : 0 < tgt * rate + c) (h2 : 0 < cur * rate + c) :
    backsolveYearsRaw rate cur tgt c =
      some (Real.log ((tgt * rate + c) / (cur * rate + c)) / Real.log (1 + rate)) := by
  have hg : ¬(c ≤ 0 ∧ cur * rate ≤ 0) := by
    rintro ⟨hc, hcr⟩; linarith
  rw [backsolveYearsRaw, if_neg hg, if_pos hr,
    if_pos (show 0 < tgt * rate + c ∧ 0 < cur * rate + c from ⟨h1, h2⟩)]

/-- C1 (amended): for a positive growth rate with both logarithm
arguments positive, the backsolver computes exactly the closed-form
years ln((target*r + contribution) / (currentAssets*r + contribution)) /
ln(1 + r), but the reported value is clamped: a finite solution above
100 years is replaced by the infinite sentinel (finalYears = years > 100
? Infinity : years), so the sentinel is not reserved for unreachable
targets (see the counterexample). -/
theorem c1_backsolve_reported_years_clamped (rate cur tgt c : ℝ) (hr : 0 < rate)
    (h1 : 0 < tgt * rate + c) (h2 : 0 < cur * rate + c) :
    backsolveFinalYears rate cur tgt c =
      if 100 < Real.log ((tgt * rate + c) / (cur * rate + c)) / Real.log (1 + rate) then none
      else some (Real.log ((tgt * rate + c) / (cur * rate + c)) / Real.log (1 + rate)) := by
  simp only [backsolveFinalYears, backsolveYearsRaw_pos rate cur tgt c hr h1 h2]

/-- Witness for C1: rate 1, current assets 1, target 2, contribution 0
give exactly one reported year. -/
theorem c1_backsolve_reported_years_clamped_witness :
    (0 : ℝ) < 1 ∧ (0 : ℝ) < 2 * 1 + 0 ∧ (0 : ℝ) < 1 * 1 + 0 ∧
      backsolveFinalYears 1 1 2 0 = some 1 := by
  refine ⟨by norm_num, by norm_num, by norm_num, ?_⟩
  have h := c1_backsolve_reported_years_clamped 1 1 2 0 (by norm_num) (by norm_num) (by norm_num)
  have hl : Real.log (((2 : ℝ) * 1 + 0) / (1 * 1 + 0)) / Real.log (1 + 1) = 1 := by
    norm_num
  rw [h, hl]
  norm_num

/-- Counterexample to C1 as stated: with rate 1, current assets 1,
target 2 to the power 101 and contribution 0, the closed-form solution
is exactly 101 finite years (the target is reachable), yet the reported
value is the infinite sentinel because of the 100-year clamp. -/
theorem c1_backsolve_clamp_counterexample :
    backsolveFinalYears 1 1 (2 ^ 101) 0 = none ∧
      Real.log (((2 : ℝ) ^ 101 * 1 + 0) / (1 * 1 + 0)) / Real.log (1 + 1) = 101 := by
  have hlog : Real.log (((2 : ℝ) ^ 101 * 1 + 0) / (1 * 1 + 0)) / Real.log (1 + 1) = 101 := by
    have h2 : ((2 : ℝ) ^ 101 * 1 + 0) / (1 * 1 + 0) = 2 ^ 101 := by norm_num
    have h3 : (1 : ℝ) + 1 = 2 := by norm_num
    rw [h2, h3, Real.log_pow, mul_div_assoc,
      div_self (ne_of_gt (Real.log_pos (by norm_num))), mul_one]
    norm_num
  refine ⟨?_, hlog⟩
  have hraw := backsolveYearsRaw_pos 1 1 (2 ^ 101) 0 (by norm_num)
    (by positivity) (by norm_num)
  simp only [backsolveFinalYears, hraw, hlog]
  rw [if_pos (by norm_num : (100 : ℝ) < 101)]

/-- C7 (amended): at growth rate exactly zero the backsolver is
special-cased away from the logarithmic formula: it reports the linear
solution (target - currentAssets) / contribution whenever the
contribution is positive and that solution is at most 100 years, the
infinite sentinel when the linear solution exceeds 100 years (the
display clamp), and the infinite sentinel for every contribution that
is not positive. -/
theorem c7_backsolve_zero_rate (cur tgt c : ℝ) :
    backsolveFinalYears 0 cur tgt c =
      if 0 < c then
        (if 100 < (tgt - cur) / c then none else some ((tgt - cur) / c))
      else none := by
  by_cases hc : 0 < c
  · have hg : ¬(c ≤ 0 ∧ cur * 0 ≤ 0) := by rintro ⟨hc', _⟩; linarith
    have hraw : backsolveYearsRaw 0 cur tgt c = some ((tgt - cur) / c) := by
      rw [backsolveYearsRaw, if_neg hg, if_neg (lt_irrefl 0), if_pos hc]
    simp only [backsolveFinalYears, hraw, if_pos hc]
  · push_neg at hc
    have hraw : backsolveYearsRaw 0 cur tgt c = none := by
      rw [backsolveYearsRaw, if_pos (show c ≤ 0 ∧ cur * 0 ≤ 0 from ⟨hc, by rw [mul_zero]⟩)]
    simp only [backsolveFinalYears, hraw, if_neg (not_lt.mpr hc)]

/-- Counterexample to C7 as stated: at rate 0, current assets 0, target
101 and contribution 1 the linear formula gives 101 years, but the
reported value is the infinite sentinel, not 101, because of the
100-year clamp. -/
theorem c7_backsolve_zero_rate_counterexample :
    backsolveFinalYears 0 0 101 1 = none ∧ (0 : ℝ) < 1 ∧ ((101 : ℝ) - 0) / 1 = 101 := by
  refine ⟨?_, by norm_num, by norm_num⟩
  have hg : ¬((1 : ℝ) ≤ 0 ∧ (0 : ℝ) * 0 ≤ 0) := by rintro ⟨h, _⟩; linarith
  have hraw : backsolveYearsRaw 0 0 101 1 = some (((101 : ℝ) - 0) / 1) := by
    rw [backsolveYearsRaw, if_neg hg, if_neg (lt_irrefl (0 : ℝ)),
      if_pos (by norm_num : (0 : ℝ) < 1)]
  simp only [backsolveFinalYears, hraw]
  rw [if_pos (by norm_num : (100 : ℝ) < ((101 : ℝ) - 0) / 1)]
